import Mathlib

/-!
Verification of the real-time messaging backend core
(connection registry, notification fan-out, conversation service).

The definitions below are a shallow embedding of the TypeScript sources:
`QueueGateway` from `src/lib/queue/queue.gateway.ts` and
`ConversationService` from the conversation service file.
User ids, socket ids and conversation ids are modelled as `Nat`;
the JS `Map<string, Set<Socket>>` becomes an association list with
unique keys whose values are duplicate-free lists; the Prisma store
becomes explicit record lists threaded through each operation.
-/

namespace Queue

/-- Event name constants from `EventsEnum` in `queue-events.enum.ts`. -/
def SUCCESS_EVENT : String := "success"

/-- Event name constant `EventsEnum.ERROR`. -/
def ERROR_EVENT : String := "error"

/-- Event name constant `EventsEnum.CONVERSATION_UPDATE`. -/
def CONVERSATION_UPDATE : String := "private:conversation_update"

/-- Event name constant `EventsEnum.CONVERSATION_LIST_RESPONSE`. -/
def CONVERSATION_LIST_RESPONSE : String := "private:conversation_list_response"

/-- Event name constant `EventsEnum.CONVERSATION_RESPONSE`. -/
def CONVERSATION_RESPONSE : String := "private:conversation_response"

/-- The in-memory client registry `private readonly clients = new Map<string, Set<Socket>>()`
of `QueueGateway`, modelled as an association list from user id to the list
of that user's live socket ids. -/
abbrev Registry := List (Nat × List Nat)

/-- `Set.add` on the model of a JS `Set<Socket>`: append if not present. -/
def setAdd (s : List Nat) (c : Nat) : List Nat :=
  if c ∈ s then s else s ++ [c]

/-- `Set.delete` on the model of a JS `Set<Socket>`. -/
def setRemove (s : List Nat) (c : Nat) : List Nat :=
  s.filter (fun x => !(x == c))

/-- `Map.get` returning `none` when the key is absent. -/
def mapGet (reg : Registry) (userId : Nat) : Option (List Nat) :=
  (reg.find? (fun e => e.1 == userId)).map (·.2)

/-- `Map.set`: replace the value at an existing key, or append a fresh entry. -/
def mapSet (reg : Registry) (userId : Nat) (s : List Nat) : Registry :=
  match reg with
  | [] => [(userId, s)]
  | e :: rest =>
    if e.1 == userId then (userId, s) :: rest else e :: mapSet rest userId s

/-- `Map.delete`: drop the entry with the given key. -/
def mapDelete (reg : Registry) (userId : Nat) : Registry :=
  reg.filter (fun e => !(e.1 == userId))

/-- `Map.has`. -/
def hasKey (reg : Registry) (userId : Nat) : Bool :=
  reg.any (fun e => e.1 == userId)

/-- `QueueGateway.getClients`: `this.clients.get(userId) || new Set()`. -/
def getClients (reg : Registry) (userId : Nat) : List Nat :=
  match mapGet reg userId with
  | some s => s
  | none => []

/-- `QueueGateway.subscribeClient`: fetch the user's set (or a fresh one),
add the client, and store it back. -/
def subscribeClient (reg : Registry) (userId conn : Nat) : Registry :=
  mapSet reg userId (setAdd (getClients reg userId) conn)

/-- `QueueGateway.unsubscribeClient`: if the user has no set, return; otherwise
delete the client from the set and delete the key when the set became empty. -/
def unsubscribeClient (reg : Registry) (userId conn : Nat) : Registry :=
  match mapGet reg userId with
  | none => reg
  | some s =>
    let s' := setRemove s conn
    if s'.length == 0 then mapDelete reg userId
    else mapSet reg userId s'

/-- Well-formedness of the registry model: keys are distinct (a JS `Map`)
and every stored set is non-empty (the invariant claimed by the spec). -/
def WFReg (reg : Registry) : Prop :=
  (reg.map (·.1)).Nodup ∧ ∀ e ∈ reg, e.2 ≠ []

/-- The `NotificationPayload` argument of the notify methods: type, title,
message (the free-form `meta` is carried opaquely and not modelled). -/
structure NotifPayload where
  ntype : String
  title : String
  message : String
deriving DecidableEq, Repr

/-- A persisted notification row together with its recipient join rows,
as created by `prisma.client.notification.create` with `users: create` /
`users: createMany`. -/
structure NotificationRecord where
  id : Nat
  ntype : String
  title : String
  message : String
  recipients : List Nat
deriving DecidableEq, Repr

/-- The notification table of the persistent store, with a fresh-id counter
and a flag telling whether the store currently fails writes (a Prisma
`create` either returns the new row or throws). -/
structure NotifDB where
  nextId : Nat
  records : List NotificationRecord
  failing : Bool
deriving DecidableEq, Repr

/-- Modelled from the spec: `prisma.client.notification.create` (the Prisma
client and schema are not part of the given sources). Persists one
`NotificationRecord` with the given recipient set atomically, returning the
new row's id, or fails when the store fails. -/
def createNotification (db : NotifDB) (data : NotifPayload) (recipients : List Nat) :
    Except String (NotifDB × Nat) :=
  if db.failing then .error "persistence failure"
  else
    .ok ({ nextId := db.nextId + 1
           records := db.records ++
             [{ id := db.nextId, ntype := data.ntype, title := data.title
                message := data.message, recipients := recipients }]
           failing := db.failing }, db.nextId)

/-- One socket emission performed by a notify method: the socket id, the
event name, and the notification id merged into the outbound payload. -/
structure Delivery where
  conn : Nat
  event : String
  notificationId : Nat
deriving DecidableEq, Repr

/-- `QueueGateway.notifySingleUser`: look up the user's live sockets, persist
one notification with recipient set `{userId}`, then emit the payload
(with the generated id) to each of those sockets. A persistence failure
propagates and nothing is emitted. -/
def notifySingleUser (reg : Registry) (db : NotifDB) (userId : Nat) (event : String)
    (data : NotifPayload) : Except String (NotifDB × List Delivery) :=
  let clients := getClients reg userId
  match createNotification db data [userId] with
  | .error e => .error e
  | .ok (db', nid) =>
    .ok (db', clients.map (fun c => { conn := c, event := event, notificationId := nid }))

/-- `QueueGateway.notifyAllUsers`: recipients are the keys of the live-client
map; when there are none the call returns early persisting nothing,
otherwise one record is created for all of them at once and the payload is
emitted to every socket of every connected user. -/
def notifyAllUsers (reg : Registry) (db : NotifDB) (event : String)
    (data : NotifPayload) : Except String (NotifDB × List Delivery) :=
  let userIds := reg.map (·.1)
  if userIds.length == 0 then .ok (db, [])
  else
    match createNotification db data userIds with
    | .error e => .error e
    | .ok (db', nid) =>
      .ok (db', ((reg.map (·.2)).flatten).map
        (fun c => { conn := c, event := event, notificationId := nid }))

/-- The decoded `JWTPayload` as used by `handleConnection`: only the subject
claim matters to the handshake (the `!payload.sub` check); a missing or
empty `sub` is modelled as `none`. -/
structure JWTPayloadM where
  sub : Option Nat
  email : String
  role : String
deriving DecidableEq, Repr

/-- A user row as selected in `handleConnection`
(`select: id, email, role, name`). -/
structure UserRec where
  id : Nat
  email : String
  role : String
  name : String
deriving DecidableEq, Repr

/-- Terminal outcome of the handshake for one connection. -/
inductive ConnResult where
  | rejected (message : String)
  | accepted (userId : Nat)
deriving DecidableEq, Repr

/-- Everything observable that `handleConnection` did: the outcome, the
registry afterwards, the per-user groups joined via `client.join`, whether
the success event was emitted, whether the user store was queried, and
whether the socket was forcibly disconnected. -/
structure HandshakeOutcome where
  result : ConnResult
  reg : Registry
  joined : List Nat
  successEmitted : Bool
  userQueried : Bool
  disconnected : Bool
deriving DecidableEq, Repr

/-- `QueueGateway.handleConnection`: extract the token (already done by the
caller here, `extractToken` yielding `token`), verify it (`verify` models
`jwtService.verify` against the configured secret: the decoded payload on
success, the thrown message on failure, which the catch block turns into
`disconnectWithError`), reject on a missing `sub`, then resolve the subject
against the user store (`findUser` models `prisma.client.user.findUnique`),
and on success bind the socket: join the per-user group, register in the
client map, and emit the success event. -/
def handleConnection (verify : String → Except String JWTPayloadM)
    (findUser : Nat → Option UserRec) (reg : Registry)
    (token : Option String) (connId : Nat) : HandshakeOutcome :=
  match token with
  | none =>
    { result := .rejected "Missing token", reg := reg, joined := []
      successEmitted := false, userQueried := false, disconnected := true }
  | some t =>
    match verify t with
    | .error msg =>
      { result := .rejected msg, reg := reg, joined := []
        successEmitted := false, userQueried := false, disconnected := true }
    | .ok payload =>
      match payload.sub with
      | none =>
        { result := .rejected "Invalid token", reg := reg, joined := []
          successEmitted := false, userQueried := false, disconnected := true }
      | some sub =>
        match findUser sub with
        | none =>
          { result := .rejected "User not found", reg := reg, joined := []
            successEmitted := false, userQueried := true, disconnected := true }
        | some user =>
          { result := .accepted user.id
            reg := subscribeClient reg user.id connId
            joined := [user.id]
            successEmitted := true, userQueried := true, disconnected := false }

end Queue

namespace Chat

/-- `ConversationStatus` from the Prisma schema, as used by
`ConversationService`. -/
inductive ConvStatus where
  | ACTIVE
  | ARCHIVED
  | BLOCKED
deriving DecidableEq, Repr

/-- Per-recipient message status (`statuses` relation rows with
`status: { not: READ }` filters in the queries). -/
inductive MsgStatus where
  | SENT
  | DELIVERED
  | READ
deriving DecidableEq, Repr

/-- One row of the per-recipient status join table of a message. -/
structure MsgStatusRec where
  userId : Nat
  status : MsgStatus
deriving DecidableEq, Repr

/-- A `privateMessage` row with its status join rows inlined. -/
structure Message where
  id : Nat
  conversationId : Nat
  senderId : Nat
  content : String
  createdAt : Nat
  statuses : List MsgStatusRec
deriving DecidableEq, Repr

/-- A `privateConversation` row. `lastMessageId` is the reference used by
the search filter on the last message's content. -/
structure Conversation where
  id : Nat
  initiatorId : Nat
  receiverId : Nat
  status : ConvStatus
  lastMessageId : Option Nat
  createdAt : Nat
  updatedAt : Nat
deriving DecidableEq, Repr

/-- The slice of the persistent store that `ConversationService` touches,
with a fresh-id counter for conversation creation. -/
structure ChatDB where
  users : List Queue.UserRec
  conversations : List Conversation
  messages : List Message
  nextConvId : Nat
deriving DecidableEq, Repr

/-- Containment of one character list inside another at any position. -/
def containsSub : List Char → List Char → Bool
  | [], pat => pat.isEmpty
  | c :: t, pat => pat.isPrefixOf (c :: t) || containsSub t pat

/-- Case-insensitive substring containment, the model of the Prisma filter
`contains: search, mode: insensitive`. -/
def containsCI (hay pat : String) : Bool :=
  containsSub hay.toLower.toList pat.toLower.toList

/-- Lookup of a user row by id (`prisma.client.user.findUnique`). -/
def findUserById (db : ChatDB) (uid : Nat) : Option Queue.UserRec :=
  db.users.find? (fun u => u.id == uid)

/-- Lookup of a message row by id (dereferencing the `lastMessage` relation). -/
def findMessageById (db : ChatDB) (mid : Nat) : Option Message :=
  db.messages.find? (fun m => m.id == mid)

/-- Participant filter of the conversation queries:
`OR: [{initiatorId: userId}, {receiverId: userId}]`. -/
def isParticipant (userId : Nat) (c : Conversation) : Bool :=
  c.initiatorId == userId || c.receiverId == userId

/-- Search clause of `loadConversations`: the initiator's name, the
receiver's name, or the last message's content contains the search string
case-insensitively. A missing relation matches nothing. -/
def matchesSearch (db : ChatDB) (s : String) (c : Conversation) : Bool :=
  (match findUserById db c.initiatorId with
   | some u => containsCI u.name s
   | none => false) ||
  (match findUserById db c.receiverId with
   | some u => containsCI u.name s
   | none => false) ||
  (match c.lastMessageId.bind (findMessageById db) with
   | some m => containsCI m.content s
   | none => false)

/-- Full `whereClause` of `loadConversations`: participant filter, AND the
search clause when a search string is given. -/
def listWhere (db : ChatDB) (userId : Nat) (search : Option String)
    (c : Conversation) : Bool :=
  isParticipant userId c &&
    (match search with
     | none => true
     | some s => matchesSearch db s c)

/-- Ordering used by `orderBy: { updatedAt: desc }` on conversations. -/
def updatedDesc (a b : Conversation) : Prop :=
  b.updatedAt ≤ a.updatedAt

instance : DecidableRel updatedDesc := fun a b =>
  inferInstanceAs (Decidable (b.updatedAt ≤ a.updatedAt))

instance : IsTotal Conversation updatedDesc :=
  ⟨fun a b => (Nat.le_total b.updatedAt a.updatedAt).imp id id⟩

instance : IsTrans Conversation updatedDesc :=
  ⟨fun _ _ _ h h' => Nat.le_trans h' h⟩

/-- Unread-message filter of `loadConversations`' `messages` include:
sent by someone other than `userId`, with some status row for `userId`
whose status is not READ. -/
def isUnreadFor (userId : Nat) (convId : Nat) (m : Message) : Bool :=
  m.conversationId == convId && !(m.senderId == userId) &&
    m.statuses.any (fun st => st.userId == userId && !(st.status == .READ))

/-- Unread count computed for one conversation of the list response
(`conv.messages.length` under the filter above). -/
def unreadCount (db : ChatDB) (userId : Nat) (convId : Nat) : Nat :=
  (db.messages.filter (isUnreadFor userId convId)).length

/-- One transformed conversation of the list response: the counterpart
(`otherParticipant`), the unread count, and the row's own fields. -/
structure ConvSummary where
  id : Nat
  participantId : Nat
  unreadCount : Nat
  status : ConvStatus
  createdAt : Nat
  updatedAt : Nat
deriving DecidableEq, Repr

/-- Pagination metadata of the responses. `totalPages` is
`Math.ceil(total / limit)`, well defined for a positive `limit`. -/
structure Pagination where
  page : Nat
  limit : Nat
  total : Nat
  totalPages : Nat
deriving DecidableEq, Repr

/-- Result payload of `loadConversations`. -/
structure ConvListResult where
  conversations : List ConvSummary
  pagination : Pagination
deriving DecidableEq, Repr

/-- Transformation of one fetched row into a list-response entry: the
counterpart is the receiver when the caller initiated, the initiator
otherwise, and `unreadCount` is the length of the filtered `messages`
include. -/
def transformConv (db : ChatDB) (userId : Nat) (c : Conversation) : ConvSummary :=
  { id := c.id
    participantId := if c.initiatorId == userId then c.receiverId else c.initiatorId
    unreadCount := unreadCount db userId c.id
    status := c.status
    createdAt := c.createdAt
    updatedAt := c.updatedAt }

/-- `Math.ceil (total / limit)` over naturals, for `limit > 0`. -/
def ceilDiv (total limit : Nat) : Nat :=
  (total + limit - 1) / limit

/-- `ConversationService.loadConversations` for an authenticated caller:
filter rows to those where the caller is a participant (AND the optional
search clause), order by `updatedAt` descending, skip `(page-1)*limit`,
take `limit`, transform each row, and report
`{page, limit, total, totalPages}` where `total` counts all filtered rows. -/
def loadConversations (db : ChatDB) (userId : Nat) (page limit : Nat)
    (search : Option String) : ConvListResult :=
  let skip := (page - 1) * limit
  let filtered := db.conversations.filter (listWhere db userId search)
  let ordered := filtered.insertionSort updatedDesc
  let pageRows := (ordered.drop skip).take limit
  let total := filtered.length
  { conversations := pageRows.map (transformConv db userId)
    pagination :=
      { page := page, limit := limit, total := total
        totalPages := ceilDiv total limit } }

/-- Ordering used by `orderBy: { createdAt: desc }` on messages. -/
def createdDesc (a b : Message) : Prop :=
  b.createdAt ≤ a.createdAt

instance : DecidableRel createdDesc := fun a b =>
  inferInstanceAs (Decidable (b.createdAt ≤ a.createdAt))

instance : IsTotal Message createdDesc :=
  ⟨fun a b => (Nat.le_total b.createdAt a.createdAt).imp id id⟩

instance : IsTrans Message createdDesc :=
  ⟨fun _ _ _ h h' => Nat.le_trans h' h⟩

/-- Conversation header of the single-conversation response. -/
structure ConvHeader where
  id : Nat
  participantId : Nat
  status : ConvStatus
  createdAt : Nat
  updatedAt : Nat
deriving DecidableEq, Repr

/-- Result payload of `loadSingleConversation`. -/
structure SingleConvResult where
  conversation : ConvHeader
  messages : List Message
  pagination : Pagination
deriving DecidableEq, Repr

/-- Membership re-authorization query shared by `loadSingleConversation`,
`deleteConversation` and `updateConversationStatus`:
`findFirst` on `{ id: conversationId, OR: [{initiatorId}, {receiverId}] }`. -/
def findParticipantConv (db : ChatDB) (userId cid : Nat) : Option Conversation :=
  db.conversations.find? (fun c => c.id == cid && isParticipant userId c)

/-- `ConversationService.loadSingleConversation` for an authenticated caller:
re-authorize membership; on miss fail with the single generic message;
otherwise page the conversation's messages newest-first
(`skip = (page-1)*limit`, `take limit`) and reverse the page in memory so
the caller sees oldest-first order within the page. -/
def loadSingleConversation (db : ChatDB) (userId cid : Nat) (page limit : Nat) :
    Except String SingleConvResult :=
  let skip := (page - 1) * limit
  match findParticipantConv db userId cid with
  | none => .error "Conversation not found or unauthorized"
  | some conversation =>
    let convMessages := db.messages.filter (fun m => m.conversationId == cid)
    let ordered := convMessages.insertionSort createdDesc
    let pageRows := (ordered.drop skip).take limit
    let totalMessages := convMessages.length
    .ok
      { conversation :=
          { id := conversation.id
            participantId :=
              if conversation.initiatorId == userId then conversation.receiverId
              else conversation.initiatorId
            status := conversation.status
            createdAt := conversation.createdAt
            updatedAt := conversation.updatedAt }
        messages := pageRows.reverse
        pagination :=
          { page := page, limit := limit, total := totalMessages
            totalPages := ceilDiv totalMessages limit } }

/-- Target of one emission performed by a conversation operation: either the
caller's own socket (`client.emit`), or a push to another user's live
connection. -/
inductive EmitTarget where
  | caller
  | toUser (userId : Nat)
deriving DecidableEq, Repr

/-- Payload shapes of the conversation-operation emissions. -/
inductive ConvEmitPayload where
  | header (h : ConvHeader)
  | actionMsg (conversationId : Nat) (action : String)
  | plainSuccess
deriving DecidableEq, Repr

/-- One emission performed by a conversation operation. -/
structure ConvEmit where
  target : EmitTarget
  event : String
  payload : ConvEmitPayload
deriving DecidableEq, Repr

/-- Modelled from the spec: `ChatGateway.emitToUserFirstSocket` (the
`ChatGateway` class is not part of the given sources) — a best-effort push
of an event to the target user's live connection, a silent no-op when the
user is offline. Recorded here as one `ConvEmit` with target `toUser`. -/
def pushToUser (userId : Nat) (event : String) (payload : ConvEmitPayload) : ConvEmit :=
  { target := .toUser userId, event := event, payload := payload }

/-- Bidirectional pair predicate of the existence check of
`initiateConversationWithUser`:
`OR: [{initiatorId, receiverId: target}, {initiatorId: target, receiverId}]`. -/
def pairPred (a b : Nat) (c : Conversation) : Bool :=
  (c.initiatorId == a && c.receiverId == b) ||
  (c.initiatorId == b && c.receiverId == a)

/-- Symmetric existence check of `initiateConversationWithUser`. -/
def findPairConv (db : ChatDB) (a b : Nat) : Option Conversation :=
  db.conversations.find? (pairPred a b)

/-- Number of stored conversation rows matching the unordered pair `{a, b}`. -/
def pairCount (db : ChatDB) (a b : Nat) : Nat :=
  db.conversations.countP (pairPred a b)

/-- Summary returned by `initiateConversationWithUser` (its `result` object,
with the counterpart resolved relative to the caller). -/
def initSummary (c : Conversation) (callerId : Nat) : ConvHeader :=
  { id := c.id
    participantId := if c.initiatorId == callerId then c.receiverId else c.initiatorId
    status := c.status
    createdAt := c.createdAt
    updatedAt := c.updatedAt }

/-- `ConversationService.initiateConversationWithUser` for an authenticated
caller: reject a self-conversation; return the existing row when the
bidirectional lookup finds one; otherwise require the target user to exist
and create a fresh row `(initiatorId, receiverId := target)` (status
defaulting to ACTIVE per the schema default modelled from the spec's
status domain). In both success branches emit the summary to the caller
and push a conversation-update to the target user. -/
def initiateConversationWithUser (db : ChatDB) (initiatorId targetUserId : Nat) :
    Except String (ChatDB × ConvHeader × List ConvEmit) :=
  if initiatorId == targetUserId then
    .error "Cannot initiate conversation with yourself"
  else
    match findPairConv db initiatorId targetUserId with
    | some conversation =>
      let result := initSummary conversation initiatorId
      .ok (db, result,
        [{ target := .caller, event := Queue.SUCCESS_EVENT, payload := .header result },
         pushToUser result.participantId Queue.CONVERSATION_UPDATE (.header result)])
    | none =>
      match findUserById db targetUserId with
      | none => .error "Target user not found"
      | some _ =>
        let conversation : Conversation :=
          { id := db.nextConvId, initiatorId := initiatorId
            receiverId := targetUserId, status := .ACTIVE
            lastMessageId := none, createdAt := 0, updatedAt := 0 }
        let db' : ChatDB :=
          { db with conversations := db.conversations ++ [conversation]
                    nextConvId := db.nextConvId + 1 }
        let result := initSummary conversation initiatorId
        .ok (db', result,
          [{ target := .caller, event := Queue.SUCCESS_EVENT, payload := .header result },
           pushToUser result.participantId Queue.CONVERSATION_UPDATE (.header result)])

/-- `ConversationService.deleteConversation` for an authenticated caller:
fetch the row filtered by membership (failing with the generic message),
remember the counterpart, delete the row, emit `{success: true}` to the
caller, and push `{conversationId, action: deleted}` to the counterpart. -/
def deleteConversation (db : ChatDB) (userId cid : Nat) :
    Except String (ChatDB × List ConvEmit) :=
  match findParticipantConv db userId cid with
  | none => .error "Conversation not found or unauthorized"
  | some conversationData =>
    let otherUserId :=
      if conversationData.initiatorId == userId then conversationData.receiverId
      else conversationData.initiatorId
    let db' : ChatDB :=
      { db with conversations := db.conversations.filter (fun c => !(c.id == cid)) }
    .ok (db',
      [{ target := .caller, event := Queue.SUCCESS_EVENT, payload := .plainSuccess },
       pushToUser otherUserId Queue.CONVERSATION_UPDATE (.actionMsg cid "deleted")])

/-- `ConversationService.updateConversationStatus` (the shared helper of
archive/block/unblock): verify the caller is a participant (throwing the
generic message otherwise), update the row's status by id, and return the
normalized projection with the counterpart resolved. -/
def updateConversationStatus (db : ChatDB) (userId cid : Nat) (status : ConvStatus) :
    Except String (ChatDB × ConvHeader) :=
  match findParticipantConv db userId cid with
  | none => .error "Conversation not found or unauthorized"
  | some conversation =>
    let db' : ChatDB :=
      { db with conversations :=
          db.conversations.map (fun c => if c.id == cid then { c with status := status } else c) }
    let updated : Conversation := { conversation with status := status }
    .ok (db',
      { id := updated.id
        participantId :=
          if updated.initiatorId == userId then updated.receiverId
          else updated.initiatorId
        status := updated.status
        createdAt := updated.createdAt
        updatedAt := updated.updatedAt })

/-- `ConversationService.archiveConversation`: set the status to ARCHIVED via
the shared helper and emit the updated summary to the caller. No push to
the counterpart is performed by this operation. -/
def archiveConversation (db : ChatDB) (userId cid : Nat) :
    Except String (ChatDB × ConvHeader × List ConvEmit) :=
  match updateConversationStatus db userId cid .ARCHIVED with
  | .error e => .error e
  | .ok (db', conversation) =>
    .ok (db', conversation,
      [{ target := .caller, event := Queue.CONVERSATION_UPDATE
         payload := .header conversation }])

/-- `ConversationService.blockConversation`: set the status to BLOCKED via the
shared helper, emit the updated summary to the caller, and push
`{conversationId, action: blocked}` to the counterpart. -/
def blockConversation (db : ChatDB) (userId cid : Nat) :
    Except String (ChatDB × ConvHeader × List ConvEmit) :=
  match updateConversationStatus db userId cid .BLOCKED with
  | .error e => .error e
  | .ok (db', conversation) =>
    .ok (db', conversation,
      [{ target := .caller, event := Queue.CONVERSATION_UPDATE
         payload := .header conversation },
       pushToUser conversation.participantId Queue.CONVERSATION_UPDATE
         (.actionMsg cid "blocked")])

/-- `ConversationService.unblockConversation`: set the status to ACTIVE via
the shared helper, emit the updated summary to the caller, and push
`{conversationId, action: unblocked}` to the counterpart. -/
def unblockConversation (db : ChatDB) (userId cid : Nat) :
    Except String (ChatDB × ConvHeader × List ConvEmit) :=
  match updateConversationStatus db userId cid .ACTIVE with
  | .error e => .error e
  | .ok (db', conversation) =>
    .ok (db', conversation,
      [{ target := .caller, event := Queue.CONVERSATION_UPDATE
         payload := .header conversation },
       pushToUser conversation.participantId Queue.CONVERSATION_UPDATE
         (.actionMsg cid "unblocked")])

/-- Number of messages of one conversation sent by the counterpart (a sender
other than the user) whose recorded per-recipient status for the user is
not READ — the spec's description of the reported `unreadCount`. -/
def unreadSpecCount (db : ChatDB) (userId convId : Nat) : Nat :=
  (db.messages.filter (fun m =>
    m.conversationId == convId && !(m.senderId == userId) &&
      m.statuses.any (fun st => st.userId == userId && !(st.status == .READ)))).length

/-- Store state after `updateConversationStatus` rewrote the row with the
given id to the given status. -/
def statusUpdatedDB (db : ChatDB) (cid : Nat) (st : ConvStatus) : ChatDB :=
  { db with conversations :=
      db.conversations.map (fun c => if c.id == cid then { c with status := st } else c) }

/-- Normalized projection returned by `updateConversationStatus` for the
found row after the status write. -/
def statusHeader (conv : Conversation) (u : Nat) (st : ConvStatus) : ConvHeader :=
  { id := conv.id
    participantId := if conv.initiatorId == u then conv.receiverId else conv.initiatorId
    status := st
    createdAt := conv.createdAt
    updatedAt := conv.updatedAt }

/-- Emission list of a conversation-mutation result, `none` on failure. -/
def convEmits (r : Except String (ChatDB × ConvHeader × List ConvEmit)) :
    Option (List ConvEmit) :=
  match r with
  | .ok (_, _, es) => some es
  | .error _ => none

/-- Emissions performed by both success branches of
`initiateConversationWithUser` for a resulting summary. -/
def initEmits (r : ConvHeader) : List ConvEmit :=
  [{ target := .caller, event := Queue.SUCCESS_EVENT, payload := .header r },
   pushToUser r.participantId Queue.CONVERSATION_UPDATE (.header r)]

/-- Row created by the create branch of `initiateConversationWithUser`. -/
def freshConv (db : ChatDB) (initiatorId targetUserId : Nat) : Conversation :=
  { id := db.nextConvId, initiatorId := initiatorId, receiverId := targetUserId
    status := .ACTIVE, lastMessageId := none, createdAt := 0, updatedAt := 0 }

/-- Store state after the create branch of `initiateConversationWithUser`. -/
def afterCreate (db : ChatDB) (initiatorId targetUserId : Nat) : ChatDB :=
  { db with conversations := db.conversations ++ [freshConv db initiatorId targetUserId]
            nextConvId := db.nextConvId + 1 }

end Chat

namespace Samples

/-- Notification payload used by the concrete instances below. -/
def pay : Queue.NotifPayload := { ntype := "t", title := "ti", message := "m" }

/-- Healthy notification store. -/
def ndb : Queue.NotifDB := { nextId := 5, records := [], failing := false }

/-- Failing notification store. -/
def ndbFail : Queue.NotifDB := { nextId := 5, records := [], failing := true }

/-- Registry with two connected users, one of them on two sockets. -/
def reg2 : Queue.Registry := [(1, [10, 11]), (2, [20])]

/-- Registry with a single user on a single socket. -/
def reg1 : Queue.Registry := [(1, [10])]

/-- Verifier accepting every token but decoding a payload with no subject. -/
def verifyNoSub : String → Except String Queue.JWTPayloadM :=
  fun _ => .ok { sub := none, email := "e", role := "USER" }

/-- User store resolving every subject (must never be reached in C10). -/
def userStoreAny : Nat → Option Queue.UserRec :=
  fun n => some { id := n, email := "e", role := "USER", name := "n" }

/-- One conversation row between users 10 and 20. -/
def conv1 : Chat.Conversation :=
  { id := 1, initiatorId := 10, receiverId := 20, status := .ACTIVE
    lastMessageId := none, createdAt := 0, updatedAt := 0 }

/-- Store holding only `conv1`. -/
def cdb1 : Chat.ChatDB :=
  { users := [], conversations := [conv1], messages := [], nextConvId := 2 }

/-- Store for the initiate claim: user 2 exists, no conversations yet. -/
def cdb2 : Chat.ChatDB :=
  { users := [{ id := 2, email := "", role := "USER", name := "" }]
    conversations := [], messages := [], nextConvId := 0 }

/-- Store for the unread-count claim: one conversation between 10 and 20 and
three messages from 20, of which exactly one is READ for user 10. -/
def cdb6 : Chat.ChatDB :=
  { users := []
    conversations := [conv1]
    messages :=
      [{ id := 1, conversationId := 1, senderId := 20, content := "a"
         createdAt := 1, statuses := [{ userId := 10, status := .READ }] },
       { id := 2, conversationId := 1, senderId := 20, content := "b"
         createdAt := 2, statuses := [{ userId := 10, status := .DELIVERED }] },
       { id := 3, conversationId := 1, senderId := 20, content := "c"
         createdAt := 3, statuses := [{ userId := 10, status := .SENT }] }]
    nextConvId := 2 }

/-- Summary expected for `cdb6` as seen by user 10. -/
def summary6 : Chat.ConvSummary :=
  { id := 1, participantId := 20, unreadCount := 2, status := .ACTIVE
    createdAt := 0, updatedAt := 0 }

/-- Store for the pagination claim: user 10 participates in 45 conversations. -/
def cdb7 : Chat.ChatDB :=
  { users := []
    conversations := (List.range 45).map (fun i =>
      { id := i, initiatorId := 10, receiverId := 20, status := .ACTIVE
        lastMessageId := none, createdAt := 0, updatedAt := i })
    messages := [], nextConvId := 45 }

end Samples

namespace Queue

theorem setAdd_ne_nil (s : List Nat) (c : Nat) : setAdd s c ≠ [] := by
  unfold setAdd
  split
  · exact List.ne_nil_of_mem (by assumption)
  · simp

theorem mapGet_mapSet_self (reg : Registry) (u : Nat) (s : List Nat) :
    mapGet (mapSet reg u s) u = some s := by
  induction reg with
  | nil => simp [mapSet, mapGet]
  | cons e t ih =>
    by_cases h : e.1 = u
    · simp [mapSet, mapGet, h]
    · have hb : (e.1 == u) = false := by simp [h]
      simp only [mapSet, hb, ite_false, cond_false]
      simpa [mapGet, List.find?, hb] using ih

theorem getClients_mapSet_self (reg : Registry) (u : Nat) (s : List Nat) :
    getClients (mapSet reg u s) u = s := by
  simp [getClients, mapGet_mapSet_self]

theorem mem_mapSet (reg : Registry) (u : Nat) (s : List Nat) :
    ∀ e ∈ mapSet reg u s, e ∈ reg ∨ e = (u, s) := by
  induction reg with
  | nil => simp [mapSet]
  | cons a t ih =>
    intro e he
    by_cases h : a.1 = u
    · rw [show mapSet (a :: t) u s = (u, s) :: t by simp [mapSet, h]] at he
      rcases List.mem_cons.mp he with h1 | h1
      · right; exact h1
      · left; exact List.mem_cons_of_mem _ h1
    · rw [show mapSet (a :: t) u s = a :: mapSet t u s by simp [mapSet, h]] at he
      rcases List.mem_cons.mp he with h1 | h1
      · left; exact h1 ▸ List.mem_cons_self _ _
      · rcases ih e h1 with h' | h'
        · left; exact List.mem_cons_of_mem _ h'
        · right; exact h'

theorem keys_mapSet_of_hasKey (reg : Registry) (u : Nat) (s : List Nat)
    (h : hasKey reg u = true) :
    (mapSet reg u s).map (·.1) = reg.map (·.1) := by
  induction reg with
  | nil => simp [hasKey] at h
  | cons a t ih =>
    by_cases ha : a.1 = u
    · have hb : (a.1 == u) = true := by simp [ha]
      simp [mapSet, hb, ha]
    · have hb : (a.1 == u) = false := by simp [ha]
      have ht : hasKey t u = true := by
        simpa [hasKey, List.any_cons, hb] using h
      simp [mapSet, hb, ih ht]

theorem hasKey_cons (a : Nat × List Nat) (t : Registry) (u : Nat) :
    hasKey (a :: t) u = ((a.1 == u) || hasKey t u) := by
  simp [hasKey, List.any_cons]

theorem keys_mapSet_of_not_hasKey (reg : Registry) (u : Nat) (s : List Nat)
    (h : hasKey reg u = false) :
    (mapSet reg u s).map (·.1) = reg.map (·.1) ++ [u] := by
  induction reg with
  | nil => simp [mapSet]
  | cons a t ih =>
    rw [hasKey_cons] at h
    obtain ⟨hb, ht⟩ := Bool.or_eq_false_iff.mp h
    simp [mapSet, hb, ih ht]

theorem not_mem_keys_of_not_hasKey (reg : Registry) (u : Nat)
    (h : hasKey reg u = false) : u ∉ reg.map (·.1) := by
  induction reg with
  | nil => simp
  | cons a t ih =>
    rw [hasKey_cons] at h
    obtain ⟨hb, ht⟩ := Bool.or_eq_false_iff.mp h
    simp only [List.map_cons, List.mem_cons]
    intro hmem
    rcases hmem with heq | hmem'
    · rw [heq] at hb
      simp at hb
    · exact ih ht hmem'

theorem mapGet_eq_none_iff (reg : Registry) (u : Nat) :
    mapGet reg u = none ↔ hasKey reg u = false := by
  constructor
  · intro h
    rw [Bool.eq_false_iff]
    intro hk
    rcases List.any_eq_true.mp hk with ⟨e, he, hpe⟩
    exact List.find?_eq_none.mp (Option.map_eq_none'.mp h) e he hpe
  · intro h
    rw [mapGet, Option.map_eq_none']
    apply List.find?_eq_none.mpr
    intro e he hpe
    have hk : hasKey reg u = true := List.any_eq_true.mpr ⟨e, he, hpe⟩
    rw [h] at hk
    cases hk

theorem hasKey_mapDelete (reg : Registry) (u : Nat) :
    hasKey (mapDelete reg u) u = false := by
  induction reg with
  | nil => rfl
  | cons a t ih =>
    by_cases h : a.1 = u
    · have hb : (!(a.1 == u)) = false := by simp [h]
      simp only [mapDelete, List.filter_cons, hb, if_false, Bool.false_eq_true]
      simpa [mapDelete] using ih
    · have hb : (!(a.1 == u)) = true := by simp [h]
      have hb2 : (a.1 == u) = false := by simp [h]
      simp only [mapDelete, List.filter_cons, hb, if_true]
      rw [hasKey_cons, hb2, Bool.false_or]
      simpa [mapDelete] using ih

theorem WFReg_mapSet (reg : Registry) (u : Nat) (s : List Nat)
    (h : WFReg reg) (hs : s ≠ []) : WFReg (mapSet reg u s) := by
  constructor
  · cases hk : hasKey reg u
    · rw [keys_mapSet_of_not_hasKey reg u s hk]
      refine List.Nodup.append h.1 (List.nodup_singleton u) ?_
      intro a ha hmem
      rcases List.mem_singleton.mp hmem with rfl
      exact not_mem_keys_of_not_hasKey reg a hk ha
    · rw [keys_mapSet_of_hasKey reg u s hk]
      exact h.1
  · intro e he
    rcases mem_mapSet reg u s e he with h' | h'
    · exact h.2 e h'
    · rw [h']; exact hs

/-- C9 invariant: `subscribeClient` preserves well-formedness. -/
theorem WFReg_subscribeClient (reg : Registry) (u c : Nat) (h : WFReg reg) :
    WFReg (subscribeClient reg u c) :=
  WFReg_mapSet reg u _ h (setAdd_ne_nil _ c)

/-- C9 invariant: `unsubscribeClient` preserves well-formedness. -/
theorem WFReg_unsubscribeClient (reg : Registry) (u c : Nat) (h : WFReg reg) :
    WFReg (unsubscribeClient reg u c) := by
  cases hm : mapGet reg u with
  | none => simpa [unsubscribeClient, hm] using h
  | some s =>
    by_cases hlen : (setRemove s c).length = 0
    · have hb : ((setRemove s c).length == 0) = true := by simp [hlen]
      have hout : unsubscribeClient reg u c = mapDelete reg u := by
        simp [unsubscribeClient, hm, hb]
      rw [hout]
      constructor
      · exact h.1.sublist (List.Sublist.map _ (List.filter_sublist reg))
      · intro e he
        exact h.2 e (List.mem_of_mem_filter he)
    · have hb : ((setRemove s c).length == 0) = false := by simpa using hlen
      have hout : unsubscribeClient reg u c = mapSet reg u (setRemove s c) := by
        simp [unsubscribeClient, hm, hb]
      rw [hout]
      exact WFReg_mapSet reg u _ h (fun hnil => hlen (by rw [hnil]; rfl))

theorem getClients_eq_nil_iff (reg : Registry) (u : Nat) (h : WFReg reg) :
    getClients reg u = [] ↔ hasKey reg u = false := by
  constructor
  · intro hg
    cases hm : reg.find? (fun e => e.1 == u) with
    | none => exact (mapGet_eq_none_iff reg u).mp (by simp [mapGet, hm])
    | some e =>
      exfalso
      have hmem := List.mem_of_find?_eq_some hm
      have hne := h.2 e hmem
      have hge : getClients reg u = e.2 := by simp [getClients, mapGet, hm]
      exact hne (hge ▸ hg)
  · intro hk
    have hnone := (mapGet_eq_none_iff reg u).mpr hk
    simp [getClients, hnone]

theorem unsubscribe_deletes_key (reg : Registry) (u c : Nat)
    (h : setRemove (getClients reg u) c = []) :
    hasKey (unsubscribeClient reg u c) u = false := by
  cases hm : mapGet reg u with
  | none =>
    have hout : unsubscribeClient reg u c = reg := by simp [unsubscribeClient, hm]
    rw [hout]
    exact (mapGet_eq_none_iff reg u).mp hm
  | some s =>
    have hs : getClients reg u = s := by simp [getClients, hm]
    rw [hs] at h
    have hb : ((setRemove s c).length == 0) = true := by simp [h]
    have hout : unsubscribeClient reg u c = mapDelete reg u := by
      simp [unsubscribeClient, hm, hb]
    rw [hout]
    exact hasKey_mapDelete reg u

end Queue

/-- C3: for every event and payload, `notifyAllUsers` with an empty set of
connected user identities is a no-op that persists no `NotificationRecord`
and performs no deliveries; with a non-empty set (and a working store) it
persists exactly one record whose recipient list is exactly the connected
user identities, then delivers to every socket of every connected user. -/
theorem claim_C3_notifyAllUsers (reg : Queue.Registry) (db : Queue.NotifDB)
    (event : String) (data : Queue.NotifPayload) :
    (reg = [] → Queue.notifyAllUsers reg db event data = .ok (db, [])) ∧
    (reg ≠ [] → db.failing = false →
      Queue.notifyAllUsers reg db event data =
        .ok ({ nextId := db.nextId + 1
               records := db.records ++
                 [{ id := db.nextId, ntype := data.ntype, title := data.title
                    message := data.message, recipients := reg.map (·.1) }]
               failing := db.failing },
             ((reg.map (·.2)).flatten).map
               (fun c => { conn := c, event := event, notificationId := db.nextId }))) := by
  constructor
  · intro h
    subst h
    rfl
  · intro hne hf
    cases reg with
    | nil => exact absurd rfl hne
    | cons e t =>
      simp [Queue.notifyAllUsers, Queue.createNotification, hf]

/-- Witness for C3 at concrete inputs: the empty registry is a no-op and a
two-user registry persists one record with recipients `[1, 2]` and delivers
to all three sockets. -/
theorem claim_C3_witness :
    Queue.notifyAllUsers [] Samples.ndb "ev" Samples.pay = .ok (Samples.ndb, []) ∧
    Queue.notifyAllUsers Samples.reg2 Samples.ndb "ev" Samples.pay =
      .ok ({ nextId := 6
             records := [{ id := 5, ntype := "t", title := "ti", message := "m"
                           recipients := [1, 2] }]
             failing := false },
           [{ conn := 10, event := "ev", notificationId := 5 },
            { conn := 11, event := "ev", notificationId := 5 },
            { conn := 20, event := "ev", notificationId := 5 }]) :=
  ⟨(claim_C3_notifyAllUsers [] Samples.ndb "ev" Samples.pay).1 rfl,
   (claim_C3_notifyAllUsers Samples.reg2 Samples.ndb "ev" Samples.pay).2
     (by decide) rfl⟩

/-- C4: for every user, event and payload, `notifySingleUser` aborts with
zero deliveries when persistence fails; when persistence succeeds it
persists exactly one `NotificationRecord` with recipient list `[userId]`
and then delivers to exactly the user's live sockets — in particular, for a
user with no live connections it still creates the record and succeeds with
zero deliveries. -/
theorem claim_C4_notifySingleUser (reg : Queue.Registry) (db : Queue.NotifDB)
    (userId : Nat) (event : String) (data : Queue.NotifPayload) :
    (db.failing = true →
      Queue.notifySingleUser reg db userId event data = .error "persistence failure") ∧
    (db.failing = false →
      Queue.notifySingleUser reg db userId event data =
        .ok ({ nextId := db.nextId + 1
               records := db.records ++
                 [{ id := db.nextId, ntype := data.ntype, title := data.title
                    message := data.message, recipients := [userId] }]
               failing := db.failing },
             (Queue.getClients reg userId).map
               (fun c => { conn := c, event := event, notificationId := db.nextId }))) ∧
    (db.failing = false → Queue.getClients reg userId = [] →
      Queue.notifySingleUser reg db userId event data =
        .ok ({ nextId := db.nextId + 1
               records := db.records ++
                 [{ id := db.nextId, ntype := data.ntype, title := data.title
                    message := data.message, recipients := [userId] }]
               failing := db.failing }, [])) := by
  refine ⟨?_, ?_, ?_⟩
  · intro h
    simp [Queue.notifySingleUser, Queue.createNotification, h]
  · intro h
    simp [Queue.notifySingleUser, Queue.createNotification, h]
  · intro h h0
    simp [Queue.notifySingleUser, Queue.createNotification, h, h0]

/-- Witness for C4 at concrete inputs: a failing store aborts, a working
store records recipient `[1]` and delivers to both of user 1's sockets, and
the offline user 3 still gets exactly one record with zero deliveries. -/
theorem claim_C4_witness :
    Queue.notifySingleUser Samples.reg2 Samples.ndbFail 1 "ev" Samples.pay =
      .error "persistence failure" ∧
    Queue.notifySingleUser Samples.reg2 Samples.ndb 1 "ev" Samples.pay =
      .ok ({ nextId := 6
             records := [{ id := 5, ntype := "t", title := "ti", message := "m"
                           recipients := [1] }]
             failing := false },
           [{ conn := 10, event := "ev", notificationId := 5 },
            { conn := 11, event := "ev", notificationId := 5 }]) ∧
    Queue.notifySingleUser Samples.reg2 Samples.ndb 3 "ev" Samples.pay =
      .ok ({ nextId := 6
             records := [{ id := 5, ntype := "t", title := "ti", message := "m"
                           recipients := [3] }]
             failing := false }, []) :=
  ⟨(claim_C4_notifySingleUser Samples.reg2 Samples.ndbFail 1 "ev" Samples.pay).1 rfl,
   (claim_C4_notifySingleUser Samples.reg2 Samples.ndb 1 "ev" Samples.pay).2.1 rfl,
   (claim_C4_notifySingleUser Samples.reg2 Samples.ndb 3 "ev" Samples.pay).2.2 rfl rfl⟩

/-- C10: for every connection whose bearer token verifies successfully but
whose decoded payload has no subject claim, `handleConnection` rejects it
with the message "Invalid token" and disconnects it before the user store
is queried: the registry is unchanged, no per-user group is joined, and no
success event is emitted. -/
theorem claim_C10_handshake_no_sub (verify : String → Except String Queue.JWTPayloadM)
    (findUser : Nat → Option Queue.UserRec) (reg : Queue.Registry)
    (t : String) (connId : Nat) (payload : Queue.JWTPayloadM)
    (hv : verify t = .ok payload) (hs : payload.sub = none) :
    Queue.handleConnection verify findUser reg (some t) connId =
      { result := .rejected "Invalid token", reg := reg, joined := []
        successEmitted := false, userQueried := false, disconnected := true } := by
  simp [Queue.handleConnection, hv, hs]

/-- Witness for C10: a verifier that accepts the token but yields no subject
leads to the "Invalid token" rejection with nothing registered, joined,
queried or emitted. -/
theorem claim_C10_witness :
    Queue.handleConnection Samples.verifyNoSub Samples.userStoreAny Samples.reg1
        (some "tok") 7 =
      { result := .rejected "Invalid token", reg := Samples.reg1, joined := []
        successEmitted := false, userQueried := false, disconnected := true } :=
  claim_C10_handshake_no_sub Samples.verifyNoSub Samples.userStoreAny Samples.reg1
    "tok" 7 { sub := none, email := "e", role := "USER" } rfl rfl

/-- C9: the connection registry keeps every present key bound to a non-empty
connection set — both `subscribeClient` and `unsubscribeClient` preserve
this well-formedness; `getClients` of an absent key is the empty set and,
under the invariant, an empty `getClients` result is equivalent to the key
being absent; registering stores exactly the previous set plus the new
connection (creating the set on a first connection), and unregistering the
last connection removes the key. -/
theorem claim_C9_registry_invariant (reg : Queue.Registry) (u c : Nat)
    (h : Queue.WFReg reg) :
    Queue.WFReg (Queue.subscribeClient reg u c) ∧
    Queue.WFReg (Queue.unsubscribeClient reg u c) ∧
    (Queue.hasKey reg u = false → Queue.getClients reg u = []) ∧
    (Queue.getClients reg u = [] ↔ Queue.hasKey reg u = false) ∧
    Queue.getClients (Queue.subscribeClient reg u c) u =
      Queue.setAdd (Queue.getClients reg u) c ∧
    (Queue.setRemove (Queue.getClients reg u) c = [] →
      Queue.hasKey (Queue.unsubscribeClient reg u c) u = false) :=
  ⟨Queue.WFReg_subscribeClient reg u c h,
   Queue.WFReg_unsubscribeClient reg u c h,
   fun hk => (Queue.getClients_eq_nil_iff reg u h).mpr hk,
   Queue.getClients_eq_nil_iff reg u h,
   Queue.getClients_mapSet_self reg u _,
   Queue.unsubscribe_deletes_key reg u c⟩

/-- Witness for C9 at a concrete well-formed registry: registering a second
socket for user 1 extends the set, and unregistering the only socket
removes the key. -/
theorem claim_C9_witness :
    Queue.WFReg Samples.reg1 ∧
    Queue.getClients (Queue.subscribeClient Samples.reg1 1 11) 1 =
      Queue.setAdd (Queue.getClients Samples.reg1 1) 11 ∧
    Queue.hasKey (Queue.unsubscribeClient Samples.reg1 1 10) 1 = false :=
  ⟨by constructor
      · decide
      · decide,
   (claim_C9_registry_invariant Samples.reg1 1 11
      ⟨by decide, by decide⟩).2.2.2.2.1,
   (claim_C9_registry_invariant Samples.reg1 1 10
      ⟨by decide, by decide⟩).2.2.2.2.2 (by decide)⟩

/-- C5: for every caller and page parameters, `loadSingleConversation` on a
conversation id that exists in no row and on a conversation the caller is
not a participant of produce the identical failure message, so the two
cases are indistinguishable to the caller. -/
theorem claim_C5_opacity (db : Chat.ChatDB) (u cid page limit : Nat) :
    ((∀ c ∈ db.conversations, c.id ≠ cid) →
      Chat.loadSingleConversation db u cid page limit =
        .error "Conversation not found or unauthorized") ∧
    ((∀ c ∈ db.conversations, c.id = cid → c.initiatorId ≠ u ∧ c.receiverId ≠ u) →
      Chat.loadSingleConversation db u cid page limit =
        .error "Conversation not found or unauthorized") := by
  constructor
  · intro hno
    have hfind : Chat.findParticipantConv db u cid = none := by
      unfold Chat.findParticipantConv
      apply List.find?_eq_none.mpr
      intro c hc
      simp [Chat.isParticipant, hno c hc]
    simp [Chat.loadSingleConversation, hfind]
  · intro hno
    have hfind : Chat.findParticipantConv db u cid = none := by
      unfold Chat.findParticipantConv
      apply List.find?_eq_none.mpr
      intro c hc
      by_cases hid : c.id = cid
      · obtain ⟨h1, h2⟩ := hno c hc hid
        simp [Chat.isParticipant, h1, h2]
      · simp [hid]
    simp [Chat.loadSingleConversation, hfind]

/-- Witness for C5: with one conversation row between users 10 and 20, a
lookup of the nonexistent id 99 and a lookup of id 1 by the outsider 30
both yield the same generic failure. -/
theorem claim_C5_witness :
    Chat.loadSingleConversation Samples.cdb1 10 99 1 50 =
      .error "Conversation not found or unauthorized" ∧
    Chat.loadSingleConversation Samples.cdb1 30 1 1 50 =
      .error "Conversation not found or unauthorized" :=
  ⟨(claim_C5_opacity Samples.cdb1 10 99 1 50).1 (by decide),
   (claim_C5_opacity Samples.cdb1 30 1 1 50).2 (by decide)⟩

namespace Chat

theorem statusApply_pred (u cid : Nat) (st : ConvStatus) (c : Conversation) :
    ((if c.id == cid then { c with status := st } else c).id == cid &&
      isParticipant u (if c.id == cid then { c with status := st } else c))
    = (c.id == cid && isParticipant u c) := by
  by_cases h : c.id = cid <;> simp [h, isParticipant]

theorem find?_statusMap (l : List Conversation) (u cid : Nat) (st : ConvStatus) :
    (l.map (fun c => if c.id == cid then { c with status := st } else c)).find?
        (fun c => c.id == cid && isParticipant u c)
      = (l.find? (fun c => c.id == cid && isParticipant u c)).map
          (fun c => if c.id == cid then { c with status := st } else c) := by
  induction l with
  | nil => rfl
  | cons a t ih =>
    cases hpa : (a.id == cid && isParticipant u a)
    · rw [List.map_cons,
          List.find?_cons_of_neg (p := fun c => c.id == cid && isParticipant u c) _
            (by simp only [statusApply_pred, hpa]; exact Bool.false_ne_true),
          List.find?_cons_of_neg (p := fun c => c.id == cid && isParticipant u c) _
            (by simp [hpa]), ih]
    · rw [List.map_cons,
          List.find?_cons_of_pos (p := fun c => c.id == cid && isParticipant u c) _
            (by simp only [statusApply_pred, hpa]),
          List.find?_cons_of_pos (p := fun c => c.id == cid && isParticipant u c) _ hpa]
      rfl

theorem statusMap_sets (l : List Conversation) (cid : Nat) (st : ConvStatus) :
    ∀ c ∈ l.map (fun c => if c.id == cid then { c with status := st } else c),
      c.id = cid → c.status = st := by
  intro c hc hid
  rcases List.mem_map.mp hc with ⟨c', _, rfl⟩
  by_cases h : c'.id = cid
  · rw [if_pos (by simp [h])]
  · rw [if_neg (by simp [h])] at hid ⊢
    exact absurd hid h

theorem updateConversationStatus_found (db : ChatDB) (u cid : Nat)
    (st : ConvStatus) (conv : Conversation)
    (h : findParticipantConv db u cid = some conv) :
    updateConversationStatus db u cid st =
      .ok (statusUpdatedDB db cid st, statusHeader conv u st) := by
  simp [updateConversationStatus, h, statusUpdatedDB, statusHeader]

theorem findParticipantConv_statusUpdated (db : ChatDB) (u cid : Nat)
    (st : ConvStatus) (conv : Conversation)
    (h : findParticipantConv db u cid = some conv) :
    findParticipantConv (statusUpdatedDB db cid st) u cid =
      some { conv with status := st } := by
  have hp := List.find?_some h
  rw [Bool.and_eq_true] at hp
  have hid : (conv.id == cid) = true := hp.1
  unfold findParticipantConv at h ⊢
  unfold statusUpdatedDB
  rw [show ({ db with conversations :=
        db.conversations.map (fun c => if c.id == cid then { c with status := st } else c)
      } : ChatDB).conversations =
      db.conversations.map (fun c => if c.id == cid then { c with status := st } else c)
    from rfl]
  rw [find?_statusMap, h, Option.map_some', if_pos hid]

end Chat

/-- C8: for every participant of a conversation (no restriction on its prior
status), `archiveConversation`, `blockConversation` and
`unblockConversation` succeed and set the status to ARCHIVED, BLOCKED and
ACTIVE respectively, in the returned summary and in every stored row with
that id; in particular calling `blockConversation` twice in succession
succeeds both times and leaves the status BLOCKED. -/
theorem claim_C8_status_ops (db : Chat.ChatDB) (u cid : Nat) (conv : Chat.Conversation)
    (h : Chat.findParticipantConv db u cid = some conv) :
    (∃ dbA hA eA, Chat.archiveConversation db u cid = .ok (dbA, hA, eA) ∧
      hA.status = .ARCHIVED ∧
      ∀ c ∈ dbA.conversations, c.id = cid → c.status = .ARCHIVED) ∧
    (∃ dbU hU eU, Chat.unblockConversation db u cid = .ok (dbU, hU, eU) ∧
      hU.status = .ACTIVE ∧
      ∀ c ∈ dbU.conversations, c.id = cid → c.status = .ACTIVE) ∧
    (∃ dbB hB eB, Chat.blockConversation db u cid = .ok (dbB, hB, eB) ∧
      hB.status = .BLOCKED ∧
      (∀ c ∈ dbB.conversations, c.id = cid → c.status = .BLOCKED) ∧
      ∃ dbB2 hB2 eB2, Chat.blockConversation dbB u cid = .ok (dbB2, hB2, eB2) ∧
        hB2.status = .BLOCKED ∧
        ∀ c ∈ dbB2.conversations, c.id = cid → c.status = .BLOCKED) := by
  have ha : Chat.archiveConversation db u cid =
      .ok (Chat.statusUpdatedDB db cid .ARCHIVED, Chat.statusHeader conv u .ARCHIVED,
        [{ target := .caller, event := Queue.CONVERSATION_UPDATE
           payload := .header (Chat.statusHeader conv u .ARCHIVED) }]) := by
    simp [Chat.archiveConversation, Chat.updateConversationStatus_found db u cid _ conv h]
  have hu : Chat.unblockConversation db u cid =
      .ok (Chat.statusUpdatedDB db cid .ACTIVE, Chat.statusHeader conv u .ACTIVE,
        [{ target := .caller, event := Queue.CONVERSATION_UPDATE
           payload := .header (Chat.statusHeader conv u .ACTIVE) },
         Chat.pushToUser (Chat.statusHeader conv u .ACTIVE).participantId
           Queue.CONVERSATION_UPDATE (.actionMsg cid "unblocked")]) := by
    simp [Chat.unblockConversation, Chat.updateConversationStatus_found db u cid _ conv h]
  have hb : Chat.blockConversation db u cid =
      .ok (Chat.statusUpdatedDB db cid .BLOCKED, Chat.statusHeader conv u .BLOCKED,
        [{ target := .caller, event := Queue.CONVERSATION_UPDATE
           payload := .header (Chat.statusHeader conv u .BLOCKED) },
         Chat.pushToUser (Chat.statusHeader conv u .BLOCKED).participantId
           Queue.CONVERSATION_UPDATE (.actionMsg cid "blocked")]) := by
    simp [Chat.blockConversation, Chat.updateConversationStatus_found db u cid _ conv h]
  have h2 := Chat.findParticipantConv_statusUpdated db u cid .BLOCKED conv h
  have hb2 : Chat.blockConversation (Chat.statusUpdatedDB db cid .BLOCKED) u cid =
      .ok (Chat.statusUpdatedDB (Chat.statusUpdatedDB db cid .BLOCKED) cid .BLOCKED,
           Chat.statusHeader { conv with status := .BLOCKED } u .BLOCKED,
        [{ target := .caller, event := Queue.CONVERSATION_UPDATE
           payload := .header (Chat.statusHeader { conv with status := .BLOCKED } u .BLOCKED) },
         Chat.pushToUser (Chat.statusHeader { conv with status := .BLOCKED } u .BLOCKED).participantId
           Queue.CONVERSATION_UPDATE (.actionMsg cid "blocked")]) := by
    simp [Chat.blockConversation, Chat.updateConversationStatus_found _ u cid _ _ h2]
  exact ⟨⟨_, _, _, ha, rfl, Chat.statusMap_sets db.conversations cid _⟩,
         ⟨_, _, _, hu, rfl, Chat.statusMap_sets db.conversations cid _⟩,
         ⟨_, _, _, hb, rfl, Chat.statusMap_sets db.conversations cid _,
           ⟨_, _, _, hb2, rfl, Chat.statusMap_sets _ cid _⟩⟩⟩

/-- Witness for C8: user 10 is a participant of conversation 1, and the three
status operations succeed on it, with a repeated block staying BLOCKED. -/
theorem claim_C8_witness :
    Chat.findParticipantConv Samples.cdb1 10 1 = some Samples.conv1 ∧
    ((∃ dbA hA eA, Chat.archiveConversation Samples.cdb1 10 1 = .ok (dbA, hA, eA) ∧
      hA.status = .ARCHIVED ∧
      ∀ c ∈ dbA.conversations, c.id = 1 → c.status = .ARCHIVED) ∧
    (∃ dbU hU eU, Chat.unblockConversation Samples.cdb1 10 1 = .ok (dbU, hU, eU) ∧
      hU.status = .ACTIVE ∧
      ∀ c ∈ dbU.conversations, c.id = 1 → c.status = .ACTIVE) ∧
    (∃ dbB hB eB, Chat.blockConversation Samples.cdb1 10 1 = .ok (dbB, hB, eB) ∧
      hB.status = .BLOCKED ∧
      (∀ c ∈ dbB.conversations, c.id = 1 → c.status = .BLOCKED) ∧
      ∃ dbB2 hB2 eB2, Chat.blockConversation dbB 10 1 = .ok (dbB2, hB2, eB2) ∧
        hB2.status = .BLOCKED ∧
        ∀ c ∈ dbB2.conversations, c.id = 1 → c.status = .BLOCKED)) :=
  ⟨by decide, claim_C8_status_ops Samples.cdb1 10 1 Samples.conv1 (by decide)⟩

namespace Chat

theorem find?_congr_pred {α : Type} {p q : α → Bool} (h : ∀ x, p x = q x) :
    ∀ l : List α, l.find? p = l.find? q := by
  intro l
  induction l with
  | nil => rfl
  | cons a t ih =>
    cases hq : q a
    · rw [List.find?_cons_of_neg _ (by rw [h a]; simp [hq]),
          List.find?_cons_of_neg _ (by simp [hq]), ih]
    · rw [List.find?_cons_of_pos _ (by rw [h a]; exact hq),
          List.find?_cons_of_pos _ hq]

theorem pairPred_symm (a b : Nat) (c : Conversation) :
    pairPred a b c = pairPred b a c := by
  simp [pairPred, Bool.or_comm]

theorem findPairConv_symm (db : ChatDB) (a b : Nat) :
    findPairConv db a b = findPairConv db b a :=
  find?_congr_pred (pairPred_symm a b) db.conversations

theorem find?_append_of_none {α : Type} {p : α → Bool} (l l' : List α)
    (h : l.find? p = none) : (l ++ l').find? p = l'.find? p := by
  induction l with
  | nil => rfl
  | cons a t ih =>
    cases hpa : p a
    · rw [List.cons_append, List.find?_cons_of_neg _ (by simp [hpa])]
      exact ih (by rw [← h, List.find?_cons_of_neg _ (by simp [hpa])])
    · rw [List.find?_cons_of_pos _ hpa] at h
      cases h

end Chat

/-- C6: every conversation reported by `loadConversations` to a user carries
an `unreadCount` equal to the number of messages of that conversation sent
by the counterpart whose per-recipient status for the user is recorded and
not READ. -/
theorem claim_C6_unread_count (db : Chat.ChatDB) (u page limit : Nat)
    (search : Option String) (s : Chat.ConvSummary)
    (hs : s ∈ (Chat.loadConversations db u page limit search).conversations) :
    s.unreadCount = Chat.unreadSpecCount db u s.id := by
  simp only [Chat.loadConversations] at hs
  rcases List.mem_map.mp hs with ⟨c, _, rfl⟩
  rfl

/-- Witness for C6: user 10's conversation with 20 holds three counterpart
messages of which one is READ for user 10, and the reported summary has
`unreadCount` 2, matching the spec-side count. -/
theorem claim_C6_witness :
    Samples.summary6 ∈ (Chat.loadConversations Samples.cdb6 10 1 20 none).conversations ∧
    Samples.summary6.unreadCount = Chat.unreadSpecCount Samples.cdb6 10 Samples.summary6.id ∧
    Chat.unreadSpecCount Samples.cdb6 10 1 = 2 ∧
    Samples.summary6.unreadCount = 2 :=
  ⟨by decide,
   claim_C6_unread_count Samples.cdb6 10 1 20 none Samples.summary6 (by decide),
   by decide, by decide⟩

/-- C7: for every user, page and positive limit, `loadConversations` with no
search string pages the participant-filtered conversations ordered
most-recently-updated first, skipping exactly `(page-1)*limit` rows and
returning `min limit (total - (page-1)*limit)` of them (hence at most
`limit`), with `totalPages = ceil(total/limit)` and the returned page
sorted by descending `updatedAt`. -/
theorem claim_C7_pagination (db : Chat.ChatDB) (u page limit : Nat)
    (hp : 1 ≤ page) (hl : 0 < limit) :
    (Chat.loadConversations db u page limit none).pagination.total =
        (db.conversations.filter (Chat.listWhere db u none)).length ∧
    (Chat.loadConversations db u page limit none).pagination.totalPages =
        Chat.ceilDiv (db.conversations.filter (Chat.listWhere db u none)).length limit ∧
    (Chat.loadConversations db u page limit none).conversations.length =
        min limit
          ((db.conversations.filter (Chat.listWhere db u none)).length -
            (page - 1) * limit) ∧
    (Chat.loadConversations db u page limit none).conversations =
        ((((db.conversations.filter (Chat.listWhere db u none)).insertionSort
              Chat.updatedDesc).map (Chat.transformConv db u)).drop
            ((page - 1) * limit)).take limit ∧
    List.Pairwise (fun a b => b.updatedAt ≤ a.updatedAt)
        (Chat.loadConversations db u page limit none).conversations := by
  refine ⟨rfl, rfl, ?_, ?_, ?_⟩
  · simp only [Chat.loadConversations, List.length_map, List.length_take,
      List.length_drop, List.length_insertionSort]
  · simp only [Chat.loadConversations, List.map_take, List.map_drop]
  · have hsorted : List.Sorted Chat.updatedDesc
        ((db.conversations.filter (Chat.listWhere db u none)).insertionSort
          Chat.updatedDesc) :=
      List.sorted_insertionSort Chat.updatedDesc _
    have hrows : List.Pairwise Chat.updatedDesc
        ((((db.conversations.filter (Chat.listWhere db u none)).insertionSort
            Chat.updatedDesc).drop ((page - 1) * limit)).take limit) :=
      (hsorted.sublist (List.drop_sublist _ _)).sublist (List.take_sublist _ _)
    simp only [Chat.loadConversations]
    exact List.pairwise_map.mpr hrows

/-- C2: for distinct users A and B (B existing in the user store, and the
store holding at most one row for the unordered pair), the call
`initiateConversationWithUser db A B` succeeds; whenever a row for the
unordered pair already existed, the store is unchanged and that row's id is
returned; the resulting store again holds at most one row for the pair, and
repeating the call on the resulting store — in either argument order —
returns the same conversation id and changes nothing. -/
theorem claim_C2_initiate_idempotent (db : Chat.ChatDB) (A B : Nat) (hne : A ≠ B)
    (hB : (Chat.findUserById db B).isSome) (huniq : Chat.pairCount db A B ≤ 1) :
    ∃ db1 r1 ems, Chat.initiateConversationWithUser db A B = .ok (db1, r1, ems) ∧
      Chat.pairCount db1 A B ≤ 1 ∧
      (∀ c, Chat.findPairConv db A B = some c → db1 = db ∧ r1.id = c.id) ∧
      Chat.initiateConversationWithUser db1 A B = .ok (db1, r1, ems) ∧
      ∃ r2 ems2, Chat.initiateConversationWithUser db1 B A = .ok (db1, r2, ems2) ∧
        r2.id = r1.id := by
  have hAB : (A == B) = false := beq_eq_false_iff_ne.mpr hne
  have hBA : (B == A) = false := beq_eq_false_iff_ne.mpr (Ne.symm hne)
  cases hfind : Chat.findPairConv db A B with
  | some c =>
    have e1 : Chat.initiateConversationWithUser db A B =
        .ok (db, Chat.initSummary c A, Chat.initEmits (Chat.initSummary c A)) := by
      simp [Chat.initiateConversationWithUser, hAB, hfind, Chat.initEmits]
    have hsymm : Chat.findPairConv db B A = some c := by
      rw [← Chat.findPairConv_symm]; exact hfind
    have e2 : Chat.initiateConversationWithUser db B A =
        .ok (db, Chat.initSummary c B, Chat.initEmits (Chat.initSummary c B)) := by
      simp [Chat.initiateConversationWithUser, hBA, hsymm, Chat.initEmits]
    refine ⟨db, Chat.initSummary c A, Chat.initEmits (Chat.initSummary c A), e1, huniq,
      ?_, e1, ⟨Chat.initSummary c B, Chat.initEmits (Chat.initSummary c B), e2, rfl⟩⟩
    intro c' hc'
    cases hc'
    exact ⟨rfl, rfl⟩
  | none =>
    rcases Option.isSome_iff_exists.mp hB with ⟨tu, htu⟩
    have hfindraw : db.conversations.find? (Chat.pairPred A B) = none := hfind
    have e1 : Chat.initiateConversationWithUser db A B =
        .ok (Chat.afterCreate db A B, Chat.initSummary (Chat.freshConv db A B) A,
          Chat.initEmits (Chat.initSummary (Chat.freshConv db A B) A)) := by
      simp [Chat.initiateConversationWithUser, hAB, hfind, htu, Chat.initEmits,
        Chat.afterCreate, Chat.freshConv]
    have hmatch : Chat.pairPred A B (Chat.freshConv db A B) = true := by
      simp [Chat.pairPred, Chat.freshConv]
    have hcount0 : db.conversations.countP (Chat.pairPred A B) = 0 :=
      List.countP_eq_zero.mpr (List.find?_eq_none.mp hfindraw)
    have hcount1 : Chat.pairCount (Chat.afterCreate db A B) A B ≤ 1 := by
      unfold Chat.pairCount
      rw [show (Chat.afterCreate db A B).conversations =
            db.conversations ++ [Chat.freshConv db A B] from rfl]
      rw [List.countP_append, hcount0]
      simp [List.countP_cons, hmatch]
    have happ : Chat.findPairConv (Chat.afterCreate db A B) A B =
        some (Chat.freshConv db A B) := by
      unfold Chat.findPairConv
      rw [show (Chat.afterCreate db A B).conversations =
            db.conversations ++ [Chat.freshConv db A B] from rfl]
      rw [Chat.find?_append_of_none _ _ hfindraw]
      exact List.find?_cons_of_pos _ hmatch
    have e2 : Chat.initiateConversationWithUser (Chat.afterCreate db A B) A B =
        .ok (Chat.afterCreate db A B, Chat.initSummary (Chat.freshConv db A B) A,
          Chat.initEmits (Chat.initSummary (Chat.freshConv db A B) A)) := by
      simp [Chat.initiateConversationWithUser, hAB, happ, Chat.initEmits]
    have happBA : Chat.findPairConv (Chat.afterCreate db A B) B A =
        some (Chat.freshConv db A B) := by
      rw [← Chat.findPairConv_symm]; exact happ
    have e3 : Chat.initiateConversationWithUser (Chat.afterCreate db A B) B A =
        .ok (Chat.afterCreate db A B, Chat.initSummary (Chat.freshConv db A B) B,
          Chat.initEmits (Chat.initSummary (Chat.freshConv db A B) B)) := by
      simp [Chat.initiateConversationWithUser, hBA, happBA, Chat.initEmits]
    refine ⟨Chat.afterCreate db A B, Chat.initSummary (Chat.freshConv db A B) A,
      Chat.initEmits (Chat.initSummary (Chat.freshConv db A B) A), e1, hcount1,
      ?_, e2, ⟨Chat.initSummary (Chat.freshConv db A B) B,
        Chat.initEmits (Chat.initSummary (Chat.freshConv db A B) B), e3, rfl⟩⟩
    intro c' hc'
    cases hc'

/-- Counterexample to C1 as stated: user 10 successfully archives
conversation 1 (shared with user 20), yet every emission of the operation
targets the caller — no notification of any kind is sent toward the
counterpart's connections. -/
theorem claim_C1_counterexample :
    (Chat.convEmits (Chat.archiveConversation Samples.cdb1 10 1)).isSome = true ∧
    (Chat.convEmits (Chat.archiveConversation Samples.cdb1 10 1)).map
        (fun es => es.all (fun e => e.target == .caller)) = some true := by
  decide

/-- C1 amended: for every participant of a conversation, the successful
mutations emit as follows — delete emits `{success: true}` to the caller
and pushes the action tag "deleted" to the counterpart; block and unblock
emit the updated summary to the caller and push the action tags "blocked"
and "unblocked" to the counterpart; archive emits the updated summary to
the caller only, with no counterpart notification. -/
theorem claim_C1_mutation_emissions (db : Chat.ChatDB) (u cid : Nat)
    (conv : Chat.Conversation)
    (h : Chat.findParticipantConv db u cid = some conv) :
    (Chat.deleteConversation db u cid =
      .ok ({ db with conversations := db.conversations.filter (fun c => !(c.id == cid)) },
        [{ target := .caller, event := Queue.SUCCESS_EVENT, payload := .plainSuccess },
         Chat.pushToUser (if conv.initiatorId == u then conv.receiverId else conv.initiatorId)
           Queue.CONVERSATION_UPDATE (.actionMsg cid "deleted")])) ∧
    (∃ dbB hB, Chat.blockConversation db u cid = .ok (dbB, hB,
        [{ target := .caller, event := Queue.CONVERSATION_UPDATE, payload := .header hB },
         Chat.pushToUser (if conv.initiatorId == u then conv.receiverId else conv.initiatorId)
           Queue.CONVERSATION_UPDATE (.actionMsg cid "blocked")])) ∧
    (∃ dbU hU, Chat.unblockConversation db u cid = .ok (dbU, hU,
        [{ target := .caller, event := Queue.CONVERSATION_UPDATE, payload := .header hU },
         Chat.pushToUser (if conv.initiatorId == u then conv.receiverId else conv.initiatorId)
           Queue.CONVERSATION_UPDATE (.actionMsg cid "unblocked")])) ∧
    (∃ dbA hA, Chat.archiveConversation db u cid = .ok (dbA, hA,
        [{ target := .caller, event := Queue.CONVERSATION_UPDATE, payload := .header hA }])) := by
  have hdel : Chat.deleteConversation db u cid =
      .ok ({ db with conversations := db.conversations.filter (fun c => !(c.id == cid)) },
        [{ target := .caller, event := Queue.SUCCESS_EVENT, payload := .plainSuccess },
         Chat.pushToUser (if conv.initiatorId == u then conv.receiverId else conv.initiatorId)
           Queue.CONVERSATION_UPDATE (.actionMsg cid "deleted")]) := by
    simp [Chat.deleteConversation, h]
  have hblock : Chat.blockConversation db u cid =
      .ok (Chat.statusUpdatedDB db cid .BLOCKED, Chat.statusHeader conv u .BLOCKED,
        [{ target := .caller, event := Queue.CONVERSATION_UPDATE
           payload := .header (Chat.statusHeader conv u .BLOCKED) },
         Chat.pushToUser
           (if conv.initiatorId == u then conv.receiverId else conv.initiatorId)
           Queue.CONVERSATION_UPDATE (.actionMsg cid "blocked")]) := by
    simp [Chat.blockConversation, Chat.updateConversationStatus_found db u cid _ conv h,
      Chat.statusHeader]
  have hunblock : Chat.unblockConversation db u cid =
      .ok (Chat.statusUpdatedDB db cid .ACTIVE, Chat.statusHeader conv u .ACTIVE,
        [{ target := .caller, event := Queue.CONVERSATION_UPDATE
           payload := .header (Chat.statusHeader conv u .ACTIVE) },
         Chat.pushToUser
           (if conv.initiatorId == u then conv.receiverId else conv.initiatorId)
           Queue.CONVERSATION_UPDATE (.actionMsg cid "unblocked")]) := by
    simp [Chat.unblockConversation, Chat.updateConversationStatus_found db u cid _ conv h,
      Chat.statusHeader]
  have harch : Chat.archiveConversation db u cid =
      .ok (Chat.statusUpdatedDB db cid .ARCHIVED, Chat.statusHeader conv u .ARCHIVED,
        [{ target := .caller, event := Queue.CONVERSATION_UPDATE
           payload := .header (Chat.statusHeader conv u .ARCHIVED) }]) := by
    simp [Chat.archiveConversation, Chat.updateConversationStatus_found db u cid _ conv h]
  exact ⟨hdel, ⟨_, _, hblock⟩, ⟨_, _, hunblock⟩, ⟨_, _, harch⟩⟩

/-- Witness for C1 amended: the four mutations on conversation 1 by its
participant 10 emit exactly as described, with the counterpart pushes
going to user 20 for delete/block/unblock and none for archive. -/
theorem claim_C1_witness :
    Chat.findParticipantConv Samples.cdb1 10 1 = some Samples.conv1 ∧
    ((Chat.deleteConversation Samples.cdb1 10 1 =
      .ok ({ Samples.cdb1 with
              conversations := Samples.cdb1.conversations.filter (fun c => !(c.id == 1)) },
        [{ target := .caller, event := Queue.SUCCESS_EVENT, payload := .plainSuccess },
         Chat.pushToUser
           (if Samples.conv1.initiatorId == 10 then Samples.conv1.receiverId
            else Samples.conv1.initiatorId)
           Queue.CONVERSATION_UPDATE (.actionMsg 1 "deleted")])) ∧
    (∃ dbB hB, Chat.blockConversation Samples.cdb1 10 1 = .ok (dbB, hB,
        [{ target := .caller, event := Queue.CONVERSATION_UPDATE, payload := .header hB },
         Chat.pushToUser
           (if Samples.conv1.initiatorId == 10 then Samples.conv1.receiverId
            else Samples.conv1.initiatorId)
           Queue.CONVERSATION_UPDATE (.actionMsg 1 "blocked")])) ∧
    (∃ dbU hU, Chat.unblockConversation Samples.cdb1 10 1 = .ok (dbU, hU,
        [{ target := .caller, event := Queue.CONVERSATION_UPDATE, payload := .header hU },
         Chat.pushToUser
           (if Samples.conv1.initiatorId == 10 then Samples.conv1.receiverId
            else Samples.conv1.initiatorId)
           Queue.CONVERSATION_UPDATE (.actionMsg 1 "unblocked")])) ∧
    (∃ dbA hA, Chat.archiveConversation Samples.cdb1 10 1 = .ok (dbA, hA,
        [{ target := .caller, event := Queue.CONVERSATION_UPDATE
           payload := .header hA }]))) :=
  ⟨by decide, claim_C1_mutation_emissions Samples.cdb1 10 1 Samples.conv1 (by decide)⟩

/-- Witness for C2: starting with no conversations and user 2 in the store,
user 1 initiating with user 2 creates one row and the repeat calls in both
orders return its id. -/
theorem claim_C2_witness :
    (1 ≠ 2 ∧ (Chat.findUserById Samples.cdb2 2).isSome ∧
      Chat.pairCount Samples.cdb2 1 2 ≤ 1) ∧
    (∃ db1 r1 ems, Chat.initiateConversationWithUser Samples.cdb2 1 2 =
        .ok (db1, r1, ems) ∧
      Chat.pairCount db1 1 2 ≤ 1 ∧
      (∀ c, Chat.findPairConv Samples.cdb2 1 2 = some c → db1 = Samples.cdb2 ∧ r1.id = c.id) ∧
      Chat.initiateConversationWithUser db1 1 2 = .ok (db1, r1, ems) ∧
      ∃ r2 ems2, Chat.initiateConversationWithUser db1 2 1 = .ok (db1, r2, ems2) ∧
        r2.id = r1.id) :=
  ⟨⟨by decide, by decide, by decide⟩,
   claim_C2_initiate_idempotent Samples.cdb2 1 2 (by decide) (by decide) (by decide)⟩

/-- Witness for C7: with 45 conversations of user 10 and limit 20, page 1
returns 20 items and `totalPages` 3, and page 3 returns the remaining 5. -/
theorem claim_C7_witness :
    (Chat.loadConversations Samples.cdb7 10 1 20 none).conversations.length =
        min 20
          ((Samples.cdb7.conversations.filter (Chat.listWhere Samples.cdb7 10 none)).length -
            (1 - 1) * 20) ∧
    (Chat.loadConversations Samples.cdb7 10 3 20 none).conversations.length =
        min 20
          ((Samples.cdb7.conversations.filter (Chat.listWhere Samples.cdb7 10 none)).length -
            (3 - 1) * 20) ∧
    (Chat.loadConversations Samples.cdb7 10 1 20 none).conversations.length = 20 ∧
    (Chat.loadConversations Samples.cdb7 10 1 20 none).pagination.totalPages = 3 ∧
    (Chat.loadConversations Samples.cdb7 10 3 20 none).conversations.length = 5 ∧
    (Chat.loadConversations Samples.cdb7 10 3 20 none).pagination.totalPages = 3 :=
  ⟨(claim_C7_pagination Samples.cdb7 10 1 20 (by decide) (by decide)).2.2.1,
   (claim_C7_pagination Samples.cdb7 10 3 20 (by decide) (by decide)).2.2.1,
   by decide, by decide, by decide, by decide⟩
